import Mathlib

/-!
# Verification of the mediamtx-backend publish / presence logic

Shallow embedding of `src/server.js` (revisions v1.1.0 and v1.2.0 of the
same file are both present in the source; the definitions below carry the
revision in their name).  Remote HTTP calls are modelled by an environment
that fixes, for each outbound call the handler may issue, the result the
remote end would deliver and the number of milliseconds it would take;
`none` models a call whose promise never settles.
-/

namespace MediamtxBackend

/-- Result of a settled `fetch`: a 2xx response with a body (`response.ok`),
a non-2xx response with a status and error text, or a rejected promise
(network error or abort) carrying the error message. -/
inductive FetchRes where
  | ok (body : String)
  | notOk (status : Nat) (body : String)
  | err (msg : String)
deriving DecidableEq, Repr

/-- One outbound remote call as fixed by the environment: `none` when the
promise never settles, `some (t, r)` when it settles after `t` ms with
result `r`. -/
abbrev Remote := Option (Nat × FetchRes)

/-- Effect of wrapping a `fetch` in an `AbortController` whose abort timer
fires after `deadline` ms (server.js v1.2.0 line 1060 / v1.1.0 line 167):
if the underlying call would settle strictly before the deadline its result
goes through, otherwise the abort fires and the caller observes a rejected
promise with an `AbortError` at the deadline. -/
def primaryEff (deadline : Nat) (p : Remote) : Nat × FetchRes :=
  match p with
  | none => (deadline, .err "AbortError")
  | some (t, r) => if deadline ≤ t then (deadline, .err "AbortError") else (t, r)

/-- Environment for `createStreamPathIfNeeded` (v1.2.0, lines 951-1003):
the behaviour of the path-get call (`GET /v3/paths/get/{name}`) and of the
path-add call (`POST /v3/paths/add/{name}`).  Neither call is wrapped in an
abort timer in the source. -/
structure ProvisionEnv where
  pathGet : Remote
  pathAdd : Remote
deriving DecidableEq, Repr

/-- Embedding of `createStreamPathIfNeeded` (server.js v1.2.0 lines 951-1003).
Returns `some (t, b)` when the function returns `b` after `t` ms of remote
calls, `none` when one of its (deadline-less) fetches never settles.

Source trace: a 2xx from path-get returns `true` (path already exists);
otherwise a create is issued: 2xx returns `true`, any non-2xx create
response returns `false` (lines 994-998), and a rejected fetch promise is
caught by the surrounding `try` and returns `false` (lines 999-1002). -/
def createStreamPathIfNeeded (env : ProvisionEnv) : Option (Nat × Bool) :=
  match env.pathGet with
  | none => none
  | some (t1, .ok _) => some (t1, true)
  | some (t1, .err _) => some (t1, false)
  | some (t1, .notOk _ _) =>
    match env.pathAdd with
    | none => none
    | some (t2, .ok _) => some (t1 + t2, true)
    | some (t2, .notOk _ _) => some (t1 + t2, false)
    | some (t2, .err _) => some (t1 + t2, false)

/-- Whether `createStreamPathIfNeeded` issues the create request: it does so
exactly when the path-get call settled with a non-2xx response (the path was
reported absent). -/
def pathAddIssued (env : ProvisionEnv) : Bool :=
  match env.pathGet with
  | some (_, .notOk _ _) => true
  | _ => false

/-- Number of remote calls `createStreamPathIfNeeded` issues (the path-get
call is always issued; the create only after an absent report). -/
def provisionCallCount (env : ProvisionEnv) : Nat :=
  1 + (if pathAddIssued env then 1 else 0)

/-- Body of a response the WHIP route sends to the publisher. -/
inductive WhipBody where
  | errJson (msg : String)
  | sdp (answer : String)
  | fallbackJson (hlsUrl : String) (viewUrl : Option String)
deriving DecidableEq, Repr

/-- An HTTP response: status code plus body. -/
structure HttpResp where
  status : Nat
  body : WhipBody
deriving DecidableEq, Repr

/-- Environment for one WHIP publish request: behaviour of the negotiation
call (`POST http://localhost:8889/{name}/whip`) and of the provisioning
calls `createStreamPathIfNeeded` would make. -/
structure WhipEnv where
  negotiate : Remote
  prov : ProvisionEnv
deriving DecidableEq, Repr

/-- What one run of a WHIP handler produces: the response sent to the
caller tagged with the elapsed remote time (`none` if the handler never
responds because an awaited promise never settles), how many negotiation
and synchronous provisioning calls were issued, and whether a deferred
best-effort `createStreamPathIfNeeded` was scheduled via `setTimeout`. -/
structure WhipOutcome where
  response : Option (Nat × HttpResp)
  negotiationCalls : Nat
  provisionCalls : Nat
  deferredEnsure : Bool
deriving DecidableEq, Repr

/-- HLS playlist locator used throughout server.js. -/
def hlsUrlFor (streamName : String) : String :=
  "/hls/" ++ streamName ++ "/index.m3u8"

/-- HLS view locator used throughout server.js. -/
def viewUrlFor (streamName : String) : String :=
  "/hls/" ++ streamName ++ "/"

/-- Emptiness of `sdpOffer.trim()`: trimming removes exactly the leading and
trailing whitespace, so the trimmed string is empty precisely when every
character of the original is whitespace. -/
def jsTrimEmpty (s : String) : Bool :=
  s.data.all (fun c => c.isWhitespace)

/-- The v1.2.0 offer check (line 1054): `!sdpOffer || sdpOffer.trim().length === 0`. -/
def offerRejectedV12 (sdpOffer : String) : Bool :=
  sdpOffer == "" || jsTrimEmpty sdpOffer

/-- The v1.1.0 offer check (line 161): `!sdpOffer` alone. -/
def offerRejectedV11 (sdpOffer : String) : Bool :=
  sdpOffer == ""

/-- Embedding of the WHIP publish route `app.post(/:streamName/whip)`, revision
v1.2.0 (lines 1045-1151).

Source trace: an empty or whitespace-only offer is rejected with 400 before
any remote call.  Otherwise the offer is forwarded to the negotiation
endpoint under a 10 s abort timer.  On `response.ok` the answer SDP is sent
verbatim with status 200 and a deferred `createStreamPathIfNeeded` is
scheduled (lines 1086-1088).  A non-2xx response throws (line 1101) and,
like a rejected/aborted fetch, lands in the fallback branch (lines
1104-1141), which awaits `createStreamPathIfNeeded`: `true` yields a 202
with the HLS locators, `false` throws and is answered 503 (lines
1132-1140).

This definition is the fallback branch (lines 1104-1141), entered with `t`
ms already spent on the failed negotiation attempt; `whipV12` below
assembles the whole route. -/
def whipV12Fallback (streamName : String) (t : Nat) (env : WhipEnv) : WhipOutcome :=
  match createStreamPathIfNeeded env.prov with
  | none =>
    { response := none, negotiationCalls := 1,
      provisionCalls := provisionCallCount env.prov, deferredEnsure := false }
  | some (tp, true) =>
    { response := some (t + tp,
        ⟨202, .fallbackJson (hlsUrlFor streamName) (some (viewUrlFor streamName))⟩),
      negotiationCalls := 1, provisionCalls := provisionCallCount env.prov,
      deferredEnsure := false }
  | some (tp, false) =>
    { response := some (t + tp,
        ⟨503, .errJson "Both WebRTC and fallback stream creation failed"⟩),
      negotiationCalls := 1, provisionCalls := provisionCallCount env.prov,
      deferredEnsure := false }

/-- Embedding of the whole v1.2.0 WHIP route, assembled from the offer
check, the negotiation attempt under the 10 s abort timer, the success
branch, and `whipV12Fallback`. -/
def whipV12 (streamName sdpOffer : String) (env : WhipEnv) : WhipOutcome :=
  if offerRejectedV12 sdpOffer then
    { response := some (0, ⟨400, .errJson "No SDP offer provided or empty SDP"⟩),
      negotiationCalls := 0, provisionCalls := 0, deferredEnsure := false }
  else
    match primaryEff 10000 env.negotiate with
    | (t, .ok answerSdp) =>
      { response := some (t, ⟨200, .sdp answerSdp⟩),
        negotiationCalls := 1, provisionCalls := 0, deferredEnsure := true }
    | (t, .notOk _ _) => whipV12Fallback streamName t env
    | (t, .err _) => whipV12Fallback streamName t env

/-- Embedding of the WHIP publish route `app.post(/:streamName/whip)`, revision
v1.1.0 (lines 153-233).

Source trace: only a missing/empty offer is rejected (line 161); the
negotiation call runs under a 25 s abort timer; `response.ok` sends the
answer verbatim (no deferred provisioning exists in this revision); a
non-2xx response and an aborted fetch are answered 202 with the HLS
locators (lines 199-203 and 211-215); any other fetch error is answered
202 with the HLS playlist locator only (lines 217-221).  No provisioning
call is ever made. -/
def whipV11 (streamName sdpOffer : String) (env : WhipEnv) : WhipOutcome :=
  if offerRejectedV11 sdpOffer then
    { response := some (0, ⟨400, .errJson "No SDP offer provided"⟩),
      negotiationCalls := 0, provisionCalls := 0, deferredEnsure := false }
  else
    match primaryEff 25000 env.negotiate with
    | (t, .ok answerSdp) =>
      { response := some (t, ⟨200, .sdp answerSdp⟩),
        negotiationCalls := 1, provisionCalls := 0, deferredEnsure := false }
    | (t, .notOk _ _) =>
      { response := some (t,
          ⟨202, .fallbackJson (hlsUrlFor streamName) (some (viewUrlFor streamName))⟩),
        negotiationCalls := 1, provisionCalls := 0, deferredEnsure := false }
    | (t, .err m) =>
      if m == "AbortError" then
        { response := some (t,
            ⟨202, .fallbackJson (hlsUrlFor streamName) (some (viewUrlFor streamName))⟩),
          negotiationCalls := 1, provisionCalls := 0, deferredEnsure := false }
      else
        { response := some (t, ⟨202, .fallbackJson (hlsUrlFor streamName) none⟩),
          negotiationCalls := 1, provisionCalls := 0, deferredEnsure := false }

/-- Returns `true` exactly when the negotiation attempt fails (non-2xx response,
network error, or abort at the deadline). -/
def primaryFailed (deadline : Nat) (p : Remote) : Bool :=
  match (primaryEff deadline p).2 with
  | .ok _ => false
  | _ => true

/-! ## Stream status route (v1.2.0, lines 1378-1456) -/

/-- One entry of the MediaMTX `paths/list` response, with the fields the
status route reads. -/
structure PathItem where
  name : String
  ready : Bool
deriving DecidableEq, Repr

/-- Behaviour of the `paths/list` call as observed by the status route:
a 2xx whose parsed body has the given `items` field (`none` when the field
is missing), a non-2xx response, or a thrown error (rejected fetch or JSON
parse failure). -/
inductive ListCallRes where
  | ok (items : Option (List PathItem))
  | notOk (status : Nat)
  | err (msg : String)
deriving DecidableEq, Repr

/-- Behaviour of the HLS `HEAD` probe issued when the path is found. -/
inductive ProbeRes where
  | ok
  | notOk (status : Nat)
  | err (msg : String)
deriving DecidableEq, Repr

/-- Environment for one status request. -/
structure StatusEnv where
  listCall : ListCallRes
  hlsProbe : ProbeRes
deriving DecidableEq, Repr

/-- Fields of the JSON body the status route sends on its non-error paths. -/
structure StatusJson where
  pathExists : Bool
  ready : Bool
  hlsAvailable : Bool
  hlsErrorMsg : Option String
  createUrl : Option String
deriving DecidableEq, Repr

/-- A response of the status route: a JSON status body, or an error body
with a non-2xx status code. -/
inductive StatusResult where
  | json (status : Nat) (body : StatusJson)
  | errJson (status : Nat) (msg : String)
deriving DecidableEq, Repr

/-- Embedding of the status route `app.get(/api/stream/:streamName/status)`,
revision v1.2.0 (lines 1378-1456).

Source trace: a thrown error (rejected `paths/list` fetch or JSON parse)
is answered 500 by the outer catch (lines 1448-1455); a settled non-2xx
`paths/list` response is answered 503 (lines 1386-1391); otherwise the
entry with the requested name is looked up in `items` (line 1394; a missing
`items` field short-circuits to not-found).  If found, the HLS `HEAD`
probe success becomes `hlsAvailable` (lines 1399-1423) and a thrown probe
error is folded into `hlsAvailable:false` with the message attached (lines
1424-1435).  If absent, the route answers `exists:false` with a
`createUrl` hint (lines 1436-1447). -/
def streamStatusV12 (streamName : String) (env : StatusEnv) : StatusResult :=
  match env.listCall with
  | .err _ => .errJson 500 "Stream status check failed"
  | .notOk _ => .errJson 503 "MediaMTX API unavailable"
  | .ok items =>
    match (items.getD []).find? (fun it => it.name == streamName) with
    | some streamPath =>
      match env.hlsProbe with
      | .ok => .json 200 ⟨true, streamPath.ready, true, none, none⟩
      | .notOk _ => .json 200 ⟨true, streamPath.ready, false, none, none⟩
      | .err m => .json 200 ⟨true, streamPath.ready, false, some m, none⟩
    | none =>
      .json 200 ⟨false, false, false, none,
        some ("/api/stream/" ++ streamName ++ "/create")⟩

/-! ## Presence state machine (v1.2.0, lines 1503-1631)

JavaScript objects used as string-keyed maps (`rooms`, `socketToRoom`,
`activeStudents`, `activeProctors`) are modelled as association lists with
unique keys; room buckets (`rooms[r].students`, `rooms[r].proctors`) are
JS arrays and are modelled as lists. -/

/-- Lookup of `m[k]` in a JS object modelled as an association list. -/
def getK (k : String) : List (String × α) → Option α
  | [] => none
  | (k', v) :: t => if k = k' then some v else getK k t

/-- Assignment `m[k] = v`: replaces the first binding in place, appends if
the key is absent. -/
def setK (k : String) (v : α) : List (String × α) → List (String × α)
  | [] => [(k, v)]
  | (k', v') :: t => if k = k' then (k, v) :: t else (k', v') :: setK k v t

/-- Deletion `delete m[k]`: removes every binding of `k` (the maps built
here never hold a key twice). -/
def delK (k : String) : List (String × α) → List (String × α)
  | [] => []
  | (k', v) :: t => if k' = k then delK k t else (k', v) :: delK k t

/-- A participant record as built by the join handlers (lines 1513-1520 and
1549-1556); `joinedAt` carries the wall-clock instant of the join event. -/
structure Participant where
  id : String
  name : String
  socketId : String
  roomId : String
  status : String
  joinedAt : Nat
deriving DecidableEq, Repr

/-- A room: the two role buckets (lines 1522-1524). -/
structure Room where
  students : List Participant
  proctors : List Participant
deriving DecidableEq, Repr

/-- Role recorded in a connection binding. -/
inductive Role where
  | student
  | proctor
deriving DecidableEq, Repr

/-- Entry of `socketToRoom[socket.id]` (lines 1511, 1547). -/
structure Binding where
  roomId : String
  role : Role
  userId : String
deriving DecidableEq, Repr

/-- The four module-level maps (lines 944-948). -/
structure ServerState where
  rooms : List (String × Room)
  socketToRoom : List (String × Binding)
  activeStudents : List (String × Participant)
  activeProctors : List (String × Participant)
deriving DecidableEq, Repr

/-- Initial state: all maps empty. -/
def initState : ServerState := ⟨[], [], [], []⟩

/-- Payload of a `stream-published` event (line 1574); the three locator
fields may be omitted by the sender. -/
structure PublishData where
  studentId : String
  streamType : String
  streamName : String
  viewUrl : Option String
  hlsUrl : Option String
  statusUrl : Option String
deriving DecidableEq, Repr

/-- Inbound connection-layer events handled by the `io.on` connection block;
each carries the socket id of the issuing connection, and joins carry the
wall-clock instant used for `joinedAt`. -/
inductive Event where
  | joinStudent (sid studentId roomId name : String) (now : Nat)
  | joinProctor (sid proctorId roomId name : String) (now : Nat)
  | streamPublished (sid : String) (data : PublishData)
  | streamStopped (sid studentId streamType : String)
  | disconnect (sid : String)
deriving DecidableEq, Repr

/-- Messages emitted by the handlers. -/
inductive Msg where
  | studentJoined (p : Participant)
  | roomInfo (roomId : String) (studentsCount proctorsCount : Nat)
  | activeStudents (ps : List Participant)
  | studentDisconnected (studentId : String)
  | streamPublished (studentId streamType streamName viewUrl hlsUrl statusUrl : String)
  | streamStopped (studentId streamType : String)
deriving DecidableEq, Repr

/-- A directed emission: `socket.to(roomId).emit(...)` reaches every room
member except the sender; `socket.emit(...)` reaches only the sender. -/
inductive Emit where
  | toRoomExceptSender (sid roomId : String) (m : Msg)
  | toSender (sid : String) (m : Msg)
deriving DecidableEq, Repr

/-- Insertion into a role bucket (lines 1526-1531 and 1562-1567): the source
runs `findIndex` on the id and assigns the record at the found index,
otherwise pushes it at the end; this recursion replaces the first record
with a matching id in place and appends when no id matches. -/
def upsertById (p : Participant) : List Participant → List Participant
  | [] => [p]
  | q :: t => if q.id == p.id then p :: t else q :: upsertById p t

/-- The room object read after `if (!rooms[roomId]) rooms[roomId] = {...}`. -/
def roomAt (s : ServerState) (roomId : String) : Room :=
  (getK roomId s.rooms).getD ⟨[], []⟩

/-- The participant record the student join handler builds (lines 1513-1520). -/
def mkStudent (studentId name sid roomId : String) (now : Nat) : Participant :=
  ⟨studentId, name, sid, roomId, "online", now⟩

/-- The participant record the proctor join handler builds (lines 1549-1556). -/
def mkProctor (proctorId name sid roomId : String) (now : Nat) : Participant :=
  ⟨proctorId, name, sid, roomId, "monitoring", now⟩

/-- Registry mutations of the disconnect handler (lines 1604-1631), before
the final `delete socketToRoom[socket.id]`: a student binding whose id is
still in `activeStudents` is deleted there and filtered out of its room
bucket; a proctor binding symmetrically; a binding whose id is no longer
active leaves the registry untouched. -/
def disconnectInner (s : ServerState) (userInfo : Binding) : ServerState :=
  match userInfo.role with
  | .student =>
    if (getK userInfo.userId s.activeStudents).isSome then
      match getK userInfo.roomId s.rooms with
      | some rm =>
        { s with
            activeStudents := delK userInfo.userId s.activeStudents,
            rooms := setK userInfo.roomId
              { rm with students := rm.students.filter (fun p => ¬ p.id = userInfo.userId) }
              s.rooms }
      | none => { s with activeStudents := delK userInfo.userId s.activeStudents }
    else s
  | .proctor =>
    if (getK userInfo.userId s.activeProctors).isSome then
      match getK userInfo.roomId s.rooms with
      | some rm =>
        { s with
            activeProctors := delK userInfo.userId s.activeProctors,
            rooms := setK userInfo.roomId
              { rm with proctors := rm.proctors.filter (fun p => ¬ p.id = userInfo.userId) }
              s.rooms }
      | none => { s with activeProctors := delK userInfo.userId s.activeProctors }
    else s

/-- Emissions of the disconnect handler: `student-disconnected` is broadcast
to the room (minus sender) only in the student branch, and only when the
room object exists (lines 1613-1616); the proctor branch broadcasts
nothing. -/
def disconnectEmits (s : ServerState) (sid : String) (userInfo : Binding) : List Emit :=
  match userInfo.role with
  | .student =>
    if (getK userInfo.userId s.activeStudents).isSome then
      match getK userInfo.roomId s.rooms with
      | some _ =>
        [.toRoomExceptSender sid userInfo.roomId (.studentDisconnected userInfo.userId)]
      | none => []
    else []
  | .proctor => []

/-- One step of the connection-event handlers (v1.2.0, lines 1503-1631):
the successor state and the list of emissions, in program order. -/
def step (s : ServerState) : Event → ServerState × List Emit
  | .joinStudent sid studentId roomId name now =>
    let p := mkStudent studentId name sid roomId now
    let base := roomAt s roomId
    let rm := { base with students := upsertById p base.students }
    ({ s with
        socketToRoom := setK sid ⟨roomId, .student, studentId⟩ s.socketToRoom,
        activeStudents := setK studentId p s.activeStudents,
        rooms := setK roomId rm s.rooms },
     [.toRoomExceptSender sid roomId (.studentJoined p),
      .toSender sid (.roomInfo roomId rm.students.length rm.proctors.length)])
  | .joinProctor sid proctorId roomId name now =>
    let p := mkProctor proctorId name sid roomId now
    let base := roomAt s roomId
    let rm := { base with proctors := upsertById p base.proctors }
    ({ s with
        socketToRoom := setK sid ⟨roomId, .proctor, proctorId⟩ s.socketToRoom,
        activeProctors := setK proctorId p s.activeProctors,
        rooms := setK roomId rm s.rooms },
     [.toSender sid (.activeStudents rm.students)])
  | .streamPublished sid data =>
    match getK sid s.socketToRoom with
    | none => (s, [])
    | some userInfo =>
      (s, [.toRoomExceptSender sid userInfo.roomId
            (.streamPublished data.studentId data.streamType data.streamName
              (data.viewUrl.getD (viewUrlFor data.streamName))
              (data.hlsUrl.getD (hlsUrlFor data.streamName))
              (data.statusUrl.getD ("/api/stream/" ++ data.streamName ++ "/status")))])
  | .streamStopped sid studentId streamType =>
    match getK sid s.socketToRoom with
    | none => (s, [])
    | some userInfo =>
      (s, [.toRoomExceptSender sid userInfo.roomId (.streamStopped studentId streamType)])
  | .disconnect sid =>
    match getK sid s.socketToRoom with
    | none => (s, [])
    | some userInfo =>
      ({ disconnectInner s userInfo with
          socketToRoom := delK sid (disconnectInner s userInfo).socketToRoom },
       disconnectEmits s sid userInfo)

/-- Run a sequence of events from a state, discarding emissions. -/
def runEvents (s : ServerState) : List Event → ServerState
  | [] => s
  | e :: es => runEvents (step s e).1 es

/-- Formalisation of the counting rule stated by the spec and the claim
(spec-side definition, for comparison with the code-side buckets): the
students currently joined to room `r` are the distinct ids with a join to
`r` whose most recent joining connection has not disconnected since; the
accumulator maps each such id to that connection. -/
def specLiveStudents (r : String) : List Event → List (String × String) → List (String × String)
  | [], acc => acc
  | .joinStudent sid i rid _ _ :: es, acc =>
    specLiveStudents r es (if rid = r then setK i sid acc else acc)
  | .disconnect sid :: es, acc =>
    specLiveStudents r es (acc.filter (fun q => ¬ q.2 = sid))
  | _ :: es, acc => specLiveStudents r es acc

/-- Number of students currently joined to room `r` after `es`, counted by
the rule of the claim (distinct ids joined minus those that have left). -/
def specLiveStudentCount (r : String) (es : List Event) : Nat :=
  (specLiveStudents r es []).length

/-! ## Helper lemmas on the association-list maps -/

theorem getK_setK (k k' : String) (v : α) (m : List (String × α)) :
    getK k (setK k' v m) = if k = k' then some v else getK k m := by
  induction m with
  | nil => by_cases h : k = k' <;> simp [getK, setK, h]
  | cons hd tl ih =>
    obtain ⟨k₂, v₂⟩ := hd
    by_cases h2 : k' = k₂
    · subst h2
      by_cases h : k = k'
      · subst h; simp [setK, getK]
      · simp [setK, getK, h]
    · simp only [setK, if_neg h2]
      by_cases h : k = k₂
      · subst h
        have hkk : ¬ k = k' := fun he => h2 he.symm
        simp [getK, hkk]
      · simp [getK, h, ih]

theorem getK_delK_self (k : String) (m : List (String × α)) :
    getK k (delK k m) = none := by
  induction m with
  | nil => rfl
  | cons hd tl ih =>
    obtain ⟨k₂, v₂⟩ := hd
    by_cases h : k₂ = k
    · simpa [delK, h] using ih
    · have hk : ¬ k = k₂ := fun he => h he.symm
      simpa [delK, h, getK, hk] using ih

/-! ## Claim C5: a primary answer is returned verbatim, with no fallback
locator, and deferred provisioning is scheduled -/

/-- C5.  For every publish request where the primary transport returns
success within the deadline, the v1.2.0 WHIP handler sends the opaque
answer payload back verbatim as the 200 response body (an SDP body, hence
no fallback locator), at the instant the remote answered, having issued
exactly the one negotiation call and no synchronous provisioning call, and
schedules the deferred best-effort `createStreamPathIfNeeded`. -/
theorem c5_primary_answer_verbatim (streamName sdpOffer answer : String)
    (env : WhipEnv) (t : Nat)
    (hoffer : offerRejectedV12 sdpOffer = false)
    (hneg : env.negotiate = some (t, .ok answer)) (ht : t < 10000) :
    whipV12 streamName sdpOffer env =
      { response := some (t, ⟨200, .sdp answer⟩),
        negotiationCalls := 1, provisionCalls := 0, deferredEnsure := true } := by
  simp [whipV12, hoffer, primaryEff, hneg, Nat.not_le.mpr ht]

/-- Witness for C5 at a concrete input: offer "v=0", answer "ANSWER",
arriving after 500 ms. -/
theorem c5_witness :
    whipV12 "s1_camera" "v=0" ⟨some (500, .ok "ANSWER"), ⟨none, none⟩⟩ =
      { response := some (500, ⟨200, .sdp "ANSWER"⟩),
        negotiationCalls := 1, provisionCalls := 0, deferredEnsure := true } :=
  c5_primary_answer_verbatim "s1_camera" "v=0" "ANSWER"
    ⟨some (500, .ok "ANSWER"), ⟨none, none⟩⟩ 500 (by decide) rfl (by decide)

/-! ## Claim C2: empty / whitespace-only offers -/

/-- C2 (amended).  The v1.2.0 WHIP handler rejects an empty or
whitespace-only offer with a 400 validation error and performs zero remote
calls (no negotiation, no provisioning, no deferred provisioning); the
v1.1.0 handler does the same for an empty offer, but its check stops there:
any non-empty offer, including a whitespace-only one, is forwarded to the
negotiation endpoint (one remote call). -/
theorem c2_offer_validation (streamName sdpOffer : String) (env : WhipEnv) :
    (offerRejectedV12 sdpOffer = true →
      whipV12 streamName sdpOffer env =
        { response := some (0, ⟨400, .errJson "No SDP offer provided or empty SDP"⟩),
          negotiationCalls := 0, provisionCalls := 0, deferredEnsure := false }) ∧
    (offerRejectedV11 sdpOffer = true →
      whipV11 streamName sdpOffer env =
        { response := some (0, ⟨400, .errJson "No SDP offer provided"⟩),
          negotiationCalls := 0, provisionCalls := 0, deferredEnsure := false }) ∧
    (offerRejectedV11 sdpOffer = false →
      (whipV11 streamName sdpOffer env).negotiationCalls = 1) := by
  refine ⟨fun h => by simp [whipV12, h], fun h => by simp [whipV11, h], fun h => ?_⟩
  simp only [whipV11, h, Bool.false_eq_true, if_false]
  rcases primaryEff 25000 env.negotiate with ⟨t, r⟩
  cases r with
  | ok a => rfl
  | notOk st b => rfl
  | err m => by_cases hm : m == "AbortError" <;> simp [hm]

/-- Counterexample to C2 as stated: the publish request with the
whitespace-only offer " " is covered by the claim (the v1.2.0 check indeed
classifies it as rejected), yet the v1.1.0 handler forwards it — it issues
the negotiation call and answers 200, not 400. -/
theorem c2_counterexample :
    offerRejectedV12 " " = true ∧
    (whipV11 "s1" " " ⟨some (1, .ok "ANSWER"), ⟨none, none⟩⟩).negotiationCalls = 1 ∧
    (whipV11 "s1" " " ⟨some (1, .ok "ANSWER"), ⟨none, none⟩⟩).response =
      some (1, ⟨200, .sdp "ANSWER"⟩) := by
  refine ⟨by decide, ?_, ?_⟩ <;> rfl

/-- Witness for C2 (amended) at concrete inputs: the whitespace-only offer
" " against both handlers. -/
theorem c2_witness :
    whipV12 "s1" " " ⟨some (1, .ok "A"), ⟨none, none⟩⟩ =
      { response := some (0, ⟨400, .errJson "No SDP offer provided or empty SDP"⟩),
        negotiationCalls := 0, provisionCalls := 0, deferredEnsure := false } ∧
    (whipV11 "s1" " " ⟨some (1, .ok "A"), ⟨none, none⟩⟩).negotiationCalls = 1 :=
  ⟨(c2_offer_validation "s1" " " ⟨some (1, .ok "A"), ⟨none, none⟩⟩).1 (by decide),
   (c2_offer_validation "s1" " " ⟨some (1, .ok "A"), ⟨none, none⟩⟩).2.2 (by decide)⟩

/-! ## Claim C3: provisioning queries first, but reports a concurrent
"already exists" create error as failure -/

/-- C3 (amended).  `createStreamPathIfNeeded` always queries the path-get
endpoint first and issues a create request only when that query settled
with a non-2xx response (the path reported absent); it returns success
exactly when the get succeeded or the create succeeded; but a non-2xx
create response — including the "already exists" answer produced by a
concurrent creation — is reported to the caller as failure (`false`), not
as success. -/
theorem c3_provision_idempotence (env : ProvisionEnv) :
    (pathAddIssued env = true → ∃ t st b, env.pathGet = some (t, .notOk st b)) ∧
    (∀ t b, createStreamPathIfNeeded env = some (t, b) →
      (b = true ↔ (∃ t1 body, env.pathGet = some (t1, .ok body)) ∨
        ((∃ t1 st1 b1, env.pathGet = some (t1, .notOk st1 b1)) ∧
         (∃ t2 body, env.pathAdd = some (t2, .ok body))))) ∧
    (∀ t1 st1 b1 t2 st2 b2, env.pathGet = some (t1, .notOk st1 b1) →
      env.pathAdd = some (t2, .notOk st2 b2) →
      createStreamPathIfNeeded env = some (t1 + t2, false)) := by
  obtain ⟨g, a⟩ := env
  refine ⟨?_, ?_, ?_⟩
  · rcases g with _ | ⟨t, r⟩
    · intro h; exact absurd h (by simp [pathAddIssued])
    · cases r with
      | ok body => intro h; exact absurd h (by simp [pathAddIssued])
      | err m => intro h; exact absurd h (by simp [pathAddIssued])
      | notOk st b => intro _; exact ⟨t, st, b, rfl⟩
  · intro t b h
    rcases g with _ | ⟨t1, r1⟩
    · exact absurd h (by simp [createStreamPathIfNeeded])
    · cases r1 with
      | ok body => simp_all [createStreamPathIfNeeded]
      | err m => simp_all [createStreamPathIfNeeded]
      | notOk st1 b1 =>
        rcases a with _ | ⟨t2, r2⟩
        · exact absurd h (by simp [createStreamPathIfNeeded])
        · cases r2 <;> simp_all [createStreamPathIfNeeded]
  · intro t1 st1 b1 t2 st2 b2 hg ha
    subst hg; subst ha; rfl

/-- Counterexample to C3 as stated: the get reports the path absent (404),
the concurrent create answers non-2xx with body "path already exists", and
`createStreamPathIfNeeded` returns `false` — the caller sees a failure, not
the Exists success the claim requires (the `/api/stream/:name/create`
route then answers 500 on this `false`). -/
theorem c3_counterexample :
    createStreamPathIfNeeded
      ⟨some (5, .notOk 404 "path not found"),
       some (3, .notOk 400 "path already exists")⟩ = some (8, false) := rfl

/-- Witness for C3 (amended) at concrete inputs. -/
theorem c3_witness :
    (∃ t st b, (some (5, FetchRes.notOk 404 "nf") : Remote) = some (t, .notOk st b)) ∧
    createStreamPathIfNeeded
      ⟨some (5, .notOk 404 "nf"), some (3, .notOk 409 "exists")⟩ = some (8, false) :=
  ⟨(c3_provision_idempotence ⟨some (5, .notOk 404 "nf"), some (3, .notOk 409 "exists")⟩).1 rfl,
   (c3_provision_idempotence ⟨some (5, .notOk 404 "nf"), some (3, .notOk 409 "exists")⟩).2.2
     5 404 "nf" 3 409 "exists" rfl rfl⟩

/-! ## Claim C1: an error reaches the publisher iff both transports fail -/

/-- C1.  For every publish request through the v1.2.0 WHIP handler with a
valid (non-empty, non-whitespace) offer, assuming the provisioning calls
settle with verdict `b`: the handler sends a response, that response has an
error status (>= 400) exactly when the primary negotiation failed (error,
non-2xx, or abort at the deadline) AND the fallback provisioning failed;
and whenever the primary negotiation failed but provisioning succeeded,
the response is the degraded-success 202 carrying the fallback locators
for that stream name — never an error. -/
theorem c1_error_iff_both_fail (streamName sdpOffer : String) (env : WhipEnv)
    (tp : Nat) (b : Bool)
    (hoffer : offerRejectedV12 sdpOffer = false)
    (hprov : createStreamPathIfNeeded env.prov = some (tp, b)) :
    ∃ tr r, (whipV12 streamName sdpOffer env).response = some (tr, r) ∧
      (400 ≤ r.status ↔ (primaryFailed 10000 env.negotiate = true ∧ b = false)) ∧
      ((primaryFailed 10000 env.negotiate = true ∧ b = true) →
        r = ⟨202, .fallbackJson (hlsUrlFor streamName) (some (viewUrlFor streamName))⟩) := by
  rcases hp : primaryEff 10000 env.negotiate with ⟨t, r⟩
  cases r with
  | ok a =>
    have hpf : primaryFailed 10000 env.negotiate = false := by
      simp [primaryFailed, hp]
    refine ⟨t, ⟨200, .sdp a⟩, ?_, ?_, ?_⟩
    · simp [whipV12, hoffer, hp]
    · simp [hpf]
    · rintro ⟨h, -⟩; rw [hpf] at h; cases h
  | notOk st body =>
    have hpf : primaryFailed 10000 env.negotiate = true := by
      simp [primaryFailed, hp]
    cases b with
    | true =>
      refine ⟨t + tp,
        ⟨202, .fallbackJson (hlsUrlFor streamName) (some (viewUrlFor streamName))⟩,
        ?_, ?_, fun _ => rfl⟩
      · simp [whipV12, hoffer, hp, whipV12Fallback, hprov]
      · simp [hpf]
    | false =>
      refine ⟨t + tp, ⟨503, .errJson "Both WebRTC and fallback stream creation failed"⟩,
        ?_, ?_, ?_⟩
      · simp [whipV12, hoffer, hp, whipV12Fallback, hprov]
      · simp [hpf]
      · rintro ⟨-, h⟩; cases h
  | err m =>
    have hpf : primaryFailed 10000 env.negotiate = true := by
      simp [primaryFailed, hp]
    cases b with
    | true =>
      refine ⟨t + tp,
        ⟨202, .fallbackJson (hlsUrlFor streamName) (some (viewUrlFor streamName))⟩,
        ?_, ?_, fun _ => rfl⟩
      · simp [whipV12, hoffer, hp, whipV12Fallback, hprov]
      · simp [hpf]
    | false =>
      refine ⟨t + tp, ⟨503, .errJson "Both WebRTC and fallback stream creation failed"⟩,
        ?_, ?_, ?_⟩
      · simp [whipV12, hoffer, hp, whipV12Fallback, hprov]
      · simp [hpf]
      · rintro ⟨-, h⟩; cases h

/-- Witness for C1 at a concrete input: the negotiation call times out
(never settles, aborted at 10 s) and provisioning succeeds after 7 ms via
an absent report plus a 2xx create; the caller receives the degraded 202,
not an error. -/
theorem c1_witness :
    ∃ tr r,
      (whipV12 "s1_screen" "v=0"
        ⟨none, ⟨some (5, .notOk 404 "nf"), some (2, .ok "created")⟩⟩).response =
        some (tr, r) ∧
      (400 ≤ r.status ↔
        (primaryFailed 10000 (none : Remote) = true ∧ true = false)) ∧
      ((primaryFailed 10000 (none : Remote) = true ∧ true = true) →
        r = ⟨202, .fallbackJson (hlsUrlFor "s1_screen") (some (viewUrlFor "s1_screen"))⟩) :=
  c1_error_iff_both_fail "s1_screen" "v=0"
    ⟨none, ⟨some (5, .notOk 404 "nf"), some (2, .ok "created")⟩⟩ 7 true
    (by decide) rfl

/-! ## Claim C4: bounded-time termination of the publish attempt -/

/-- C4 (amended).  The negotiation leg of the v1.2.0 WHIP handler always
resolves by the 10 s deadline (the abort timer fires at the deadline); if
the primary fails and the provisioning calls settle with success, the
caller receives the non-error degraded 202 at the negotiation time plus
the provisioning time; but the provisioning fetches carry no deadline, so
the handler sends no response at all exactly when the primary negotiation
fails and one of the provisioning fetches never settles — in that case the
caller is left waiting indefinitely, and the provisioning time is not
bounded by any epsilon beyond the deadline. -/
theorem c4_bounded_attempt (streamName sdpOffer : String) (env : WhipEnv)
    (hoffer : offerRejectedV12 sdpOffer = false) :
    (primaryEff 10000 env.negotiate).1 ≤ 10000 ∧
    (∀ tp, createStreamPathIfNeeded env.prov = some (tp, true) →
      primaryFailed 10000 env.negotiate = true →
      (whipV12 streamName sdpOffer env).response =
        some ((primaryEff 10000 env.negotiate).1 + tp,
          ⟨202, .fallbackJson (hlsUrlFor streamName) (some (viewUrlFor streamName))⟩)) ∧
    ((whipV12 streamName sdpOffer env).response = none ↔
      (primaryFailed 10000 env.negotiate = true ∧
        createStreamPathIfNeeded env.prov = none)) := by
  refine ⟨?_, ?_, ?_⟩
  · rcases env.negotiate with _ | ⟨t, r⟩
    · exact le_refl _
    · simp only [primaryEff]
      split
      · exact le_refl _
      · next h => exact Nat.le_of_lt (Nat.lt_of_not_le h)
  · intro tp hprov hfail
    simp only [whipV12, hoffer, Bool.false_eq_true, if_false, primaryFailed] at *
    rcases hp : primaryEff 10000 env.negotiate with ⟨t, r⟩
    rw [hp] at hfail
    cases r with
    | ok a => simp at hfail
    | notOk st body => simp [whipV12Fallback, hprov]
    | err m => simp [whipV12Fallback, hprov]
  · simp only [whipV12, hoffer, Bool.false_eq_true, if_false, primaryFailed]
    rcases hp : primaryEff 10000 env.negotiate with ⟨t, r⟩
    cases r with
    | ok a => simp
    | notOk st body =>
      simp only [whipV12Fallback]
      rcases hc : createStreamPathIfNeeded env.prov with _ | ⟨tp, b⟩
      · simp
      · cases b <;> simp
    | err m =>
      simp only [whipV12Fallback]
      rcases hc : createStreamPathIfNeeded env.prov with _ | ⟨tp, b⟩
      · simp
      · cases b <;> simp

/-- Counterexample to C4 as stated: with a primary transport that never
responds (aborted at the deadline) and a provisioning path-get fetch whose
promise never settles, the handler never sends any response — the caller
waits indefinitely, refuting that every publish attempt terminates within
the deadline plus a bounded epsilon. -/
theorem c4_counterexample :
    (whipV12 "s1_screen" "v=0" ⟨none, ⟨none, none⟩⟩).response = none := rfl

/-- Witness for C4 (amended) at a concrete input: primary times out,
provisioning succeeds after 7 ms, and the caller receives the 202 at
10007 ms. -/
theorem c4_witness :
    (primaryEff 10000 (none : Remote)).1 ≤ 10000 ∧
    (whipV12 "s2" "v=0" ⟨none, ⟨some (5, .notOk 404 "nf"), some (2, .ok "c")⟩⟩).response =
      some (10007, ⟨202, .fallbackJson (hlsUrlFor "s2") (some (viewUrlFor "s2"))⟩) := by
  have h := c4_bounded_attempt "s2" "v=0"
    ⟨none, ⟨some (5, .notOk 404 "nf"), some (2, .ok "c")⟩⟩ (by decide)
  exact ⟨h.1, h.2.1 7 rfl rfl⟩

/-! ## Claim C9: the status route and error folding -/

/-- C9 (amended).  When the `paths/list` call settles with a 2xx response,
the v1.2.0 status route always answers 200 with a composite status body:
a failing or thrown HLS probe is folded into `hlsAvailable = false`, and an
absent stream yields `exists = false` together with the provisioning hint
locator.  But a failure of the `paths/list` call itself IS surfaced as a
system error: a settled non-2xx answer is met with 503, and a thrown or
rejected call with 500. -/
theorem c9_status_folding (streamName : String) (env : StatusEnv) :
    (∀ items, env.listCall = .ok items →
      ∃ body, streamStatusV12 streamName env = .json 200 body ∧
        (env.hlsProbe ≠ .ok → body.hlsAvailable = false) ∧
        (body.pathExists = false →
          body.createUrl = some ("/api/stream/" ++ streamName ++ "/create"))) ∧
    (∀ st, env.listCall = .notOk st →
      streamStatusV12 streamName env = .errJson 503 "MediaMTX API unavailable") ∧
    (∀ m, env.listCall = .err m →
      streamStatusV12 streamName env = .errJson 500 "Stream status check failed") := by
  refine ⟨?_, ?_, ?_⟩
  · intro items h
    simp only [streamStatusV12, h]
    rcases hf : (items.getD []).find? (fun it => it.name == streamName) with _ | sp
    · simp only [hf]
      exact ⟨_, rfl, fun _ => rfl, fun _ => rfl⟩
    · cases hp : env.hlsProbe with
      | ok =>
        simp only [hf, hp]
        exact ⟨_, rfl, fun hne => absurd rfl hne, by simp⟩
      | notOk st =>
        simp only [hf, hp]
        exact ⟨_, rfl, fun _ => rfl, by simp⟩
      | err m =>
        simp only [hf, hp]
        exact ⟨_, rfl, fun _ => rfl, by simp⟩
  · intro st h; simp [streamStatusV12, h]
  · intro m h; simp [streamStatusV12, h]

/-- Counterexample to C9 as stated: when the `paths/list` call settles with
a 500, the status route surfaces a 503 system error instead of a composite
status result. -/
theorem c9_counterexample :
    streamStatusV12 "s1" ⟨.notOk 500, .ok⟩ =
      .errJson 503 "MediaMTX API unavailable" := rfl

/-- Witness for C9 (amended) at concrete inputs: a settled list with the
stream absent, and a thrown HLS probe. -/
theorem c9_witness :
    ∃ body,
      streamStatusV12 "s1" ⟨.ok (some []), .err "probe down"⟩ = .json 200 body ∧
      ((StatusEnv.mk (.ok (some [])) (.err "probe down")).hlsProbe ≠ .ok →
        body.hlsAvailable = false) ∧
      (body.pathExists = false →
        body.createUrl = some ("/api/stream/" ++ "s1" ++ "/create")) :=
  (c9_status_folding "s1" ⟨.ok (some []), .err "probe down"⟩).1 (some []) rfl

/-! ## Claim C7: the leave operation is idempotent -/

/-- Disconnect of a connection with no binding is a no-op: no mutation, no
emission. -/
theorem disconnect_noop (s : ServerState) (sid : String)
    (h : getK sid s.socketToRoom = none) :
    step s (.disconnect sid) = (s, []) := by
  simp [step, h]

/-- After any disconnect, the binding of the disconnecting socket is gone. -/
theorem binding_gone_after_disconnect (s : ServerState) (sid : String) :
    getK sid ((step s (.disconnect sid)).1).socketToRoom = none := by
  rcases h : getK sid s.socketToRoom with _ | b
  · rw [disconnect_noop s sid h]; exact h
  · simp only [step, h]
    exact getK_delK_self sid _

/-- C7.  Leave is idempotent: disconnect of a connection that never joined
(or whose binding was already removed) mutates nothing and emits nothing,
and a second disconnect of the same connection — whatever the first one
did — is a complete no-op. -/
theorem c7_idempotent_leave (s : ServerState) (sid : String) :
    (getK sid s.socketToRoom = none → step s (.disconnect sid) = (s, [])) ∧
    step ((step s (.disconnect sid)).1) (.disconnect sid) =
      ((step s (.disconnect sid)).1, []) := by
  refine ⟨disconnect_noop s sid, ?_⟩
  exact disconnect_noop _ sid (binding_gone_after_disconnect s sid)

/-- Witness for C7 at a concrete input: a connection that never joined, and
a double disconnect after a real join. -/
theorem c7_witness :
    step initState (.disconnect "S9") = (initState, []) ∧
    step ((step (step initState (.joinStudent "S1" "A" "R" "Al" 0)).1
            (.disconnect "S1")).1) (.disconnect "S1") =
      ((step (step initState (.joinStudent "S1" "A" "R" "Al" 0)).1
          (.disconnect "S1")).1, []) :=
  ⟨(c7_idempotent_leave initState "S9").1 rfl,
   (c7_idempotent_leave (step initState (.joinStudent "S1" "A" "R" "Al" 0)).1 "S1").2⟩

/-! ## Claim C10: the relay silently drops events from unbound connections -/

/-- C10.  A `stream-published` or `stream-stopped` event from a connection
with no binding (never joined, or already disconnected) is dropped
silently: the state is unchanged and nothing is emitted to anyone. -/
theorem c10_relay_drops_unbound (s : ServerState) (sid : String)
    (d : PublishData) (studentId streamType : String)
    (h : getK sid s.socketToRoom = none) :
    step s (.streamPublished sid d) = (s, []) ∧
    step s (.streamStopped sid studentId streamType) = (s, []) := by
  constructor <;> simp [step, h]

/-- Witness for C10 at a concrete input: a fresh server with no bindings. -/
theorem c10_witness :
    step initState (.streamPublished "S1" ⟨"A", "camera", "A_camera", none, none, none⟩) =
      (initState, []) ∧
    step initState (.streamStopped "S1" "A" "camera") = (initState, []) :=
  c10_relay_drops_unbound initState "S1" ⟨"A", "camera", "A_camera", none, none, none⟩
    "A" "camera" rfl

/-! ## Claim C8: notifications on join -/

/-- C8 (amended).  A student join broadcasts `student-joined` with the full
participant record to the room minus the sender and separately sends the
sender a private roster summary (`room-info` with both counts); a proctor
join broadcasts nothing and receives no roster summary — its only emission
is the private `active-students` list of the room's current student
records. -/
theorem c8_join_emissions (s : ServerState) (sid pid stid rid nm : String) (now : Nat) :
    (step s (.joinStudent sid stid rid nm now)).2 =
      [.toRoomExceptSender sid rid (.studentJoined (mkStudent stid nm sid rid now)),
       .toSender sid (.roomInfo rid
         (upsertById (mkStudent stid nm sid rid now) (roomAt s rid).students).length
         (roomAt s rid).proctors.length)] ∧
    (step s (.joinProctor sid pid rid nm now)).2 =
      [.toSender sid (.activeStudents (roomAt s rid).students)] :=
  ⟨rfl, rfl⟩

/-- Recognises a broadcast emission (`socket.to(room).emit`). -/
def isBroadcastEmit : Emit → Bool
  | .toRoomExceptSender _ _ _ => true
  | _ => false

/-- Recognises a private roster summary emission (`room-info` to sender). -/
def isRoomInfoEmit : Emit → Bool
  | .toSender _ (.roomInfo _ _ _) => true
  | _ => false

/-- State with one student already joined to room "R", so a broadcast on a
subsequent join would have a recipient. -/
def c8State : ServerState := (step initState (.joinStudent "S1" "A" "R" "Al" 0)).1

/-- Counterexample to C8 as stated: with a student already in room "R", a
proctor join to "R" emits exactly one message — the private
`active-students` list — so no `participant-joined` broadcast reaches the
other room member and the joining proctor receives no roster summary. -/
theorem c8_counterexample :
    (roomAt c8State "R").students.length = 1 ∧
    (step c8State (.joinProctor "S2" "P" "R" "Pia" 5)).2 =
      [.toSender "S2" (.activeStudents [mkStudent "A" "Al" "S1" "R" 0])] ∧
    ((step c8State (.joinProctor "S2" "P" "R" "Pia" 5)).2.all
      (fun e => !(isBroadcastEmit e))) = true ∧
    ((step c8State (.joinProctor "S2" "P" "R" "Pia" 5)).2.all
      (fun e => !(isRoomInfoEmit e))) = true :=
  ⟨rfl, rfl, rfl, rfl⟩

/-! ## Claim C6: per-bucket uniqueness, and the participant-count rule -/

theorem upsert_ids_subset (p : Participant) (l : List Participant) :
    ∀ x, x ∈ (upsertById p l).map Participant.id →
      x = p.id ∨ x ∈ l.map Participant.id := by
  induction l with
  | nil =>
    intro x hx
    simp [upsertById] at hx
    exact Or.inl hx
  | cons q t ih =>
    intro x hx
    simp only [upsertById] at hx
    by_cases h : q.id == p.id
    · rw [if_pos h] at hx
      simp only [List.map_cons, List.mem_cons] at hx
      rcases hx with hx | hx
      · exact Or.inl hx
      · exact Or.inr (by simp only [List.map_cons, List.mem_cons]; exact Or.inr hx)
    · rw [if_neg h] at hx
      simp only [List.map_cons, List.mem_cons] at hx
      rcases hx with hx | hx
      · exact Or.inr (by simp only [List.map_cons, List.mem_cons]; exact Or.inl hx)
      · rcases ih x hx with h1 | h1
        · exact Or.inl h1
        · exact Or.inr (by simp only [List.map_cons, List.mem_cons]; exact Or.inr h1)

theorem upsert_ids_nodup (p : Participant) (l : List Participant)
    (h : (l.map Participant.id).Nodup) :
    ((upsertById p l).map Participant.id).Nodup := by
  induction l with
  | nil => simp [upsertById]
  | cons q t ih =>
    simp only [List.map_cons, List.nodup_cons] at h
    obtain ⟨hq, ht⟩ := h
    simp only [upsertById]
    by_cases hid : q.id == p.id
    · rw [if_pos hid]
      simp only [List.map_cons, List.nodup_cons]
      have he : q.id = p.id := beq_iff_eq.mp hid
      exact ⟨he ▸ hq, ht⟩
    · rw [if_neg hid]
      simp only [List.map_cons, List.nodup_cons]
      refine ⟨?_, ih ht⟩
      intro hmem
      rcases upsert_ids_subset p t q.id hmem with h1 | h1
      · exact hid (beq_iff_eq.mpr h1)
      · exact hq h1

theorem upsert_length_of_mem (p : Participant) (l : List Participant)
    (h : p.id ∈ l.map Participant.id) : (upsertById p l).length = l.length := by
  induction l with
  | nil => simp at h
  | cons q t ih =>
    simp only [upsertById]
    by_cases hid : q.id == p.id
    · rw [if_pos hid]; simp
    · rw [if_neg hid]
      simp only [List.map_cons, List.mem_cons] at h
      rcases h with h | h
      · exact absurd (beq_iff_eq.mpr h.symm) hid
      · simp [ih h]

theorem filter_ids_nodup (f : Participant → Bool) (l : List Participant)
    (h : (l.map Participant.id).Nodup) :
    ((l.filter f).map Participant.id).Nodup := by
  have hs : List.Sublist ((l.filter f).map Participant.id) (l.map Participant.id) :=
    (List.filter_sublist l).map Participant.id
  exact h.sublist hs

/-- The per-room uniqueness invariant: every role bucket of every room
holds at most one record per participant id. -/
def RoomsOk (s : ServerState) : Prop :=
  ∀ r rm, getK r s.rooms = some rm →
    (rm.students.map Participant.id).Nodup ∧ (rm.proctors.map Participant.id).Nodup

theorem roomsOk_init : RoomsOk initState := by
  intro r rm h
  simp [initState, getK] at h

theorem roomAt_ok (s : ServerState) (h : RoomsOk s) (rid : String) :
    ((roomAt s rid).students.map Participant.id).Nodup ∧
    ((roomAt s rid).proctors.map Participant.id).Nodup := by
  unfold roomAt
  rcases hb : getK rid s.rooms with _ | rm0
  · simp
  · simpa using h rid rm0 hb

theorem roomsOk_step (s : ServerState) (e : Event) (h : RoomsOk s) :
    RoomsOk (step s e).1 := by
  cases e with
  | joinStudent sid stid rid nm now =>
    intro r rm hr
    simp only [step] at hr
    rw [getK_setK] at hr
    by_cases hrr : r = rid
    · rw [if_pos hrr] at hr
      cases hr
      exact ⟨upsert_ids_nodup _ _ (roomAt_ok s h rid).1, (roomAt_ok s h rid).2⟩
    · rw [if_neg hrr] at hr
      exact h r rm hr
  | joinProctor sid pid rid nm now =>
    intro r rm hr
    simp only [step] at hr
    rw [getK_setK] at hr
    by_cases hrr : r = rid
    · rw [if_pos hrr] at hr
      cases hr
      exact ⟨(roomAt_ok s h rid).1, upsert_ids_nodup _ _ (roomAt_ok s h rid).2⟩
    · rw [if_neg hrr] at hr
      exact h r rm hr
  | streamPublished sid d =>
    intro r rm hr
    rcases hb : getK sid s.socketToRoom with _ | b <;>
      simp only [step, hb] at hr <;> exact h r rm hr
  | streamStopped sid i ty =>
    intro r rm hr
    rcases hb : getK sid s.socketToRoom with _ | b <;>
      simp only [step, hb] at hr <;> exact h r rm hr
  | disconnect sid =>
    intro r rm hr
    rcases hb : getK sid s.socketToRoom with _ | b
    · simp only [step, hb] at hr
      exact h r rm hr
    · simp only [step, hb] at hr
      have hinner : getK r (disconnectInner s b).rooms = some rm := hr
      unfold disconnectInner at hinner
      cases hrole : b.role with
      | student =>
        rw [hrole] at hinner
        by_cases hact : (getK b.userId s.activeStudents).isSome
        · rw [if_pos hact] at hinner
          rcases hroom : getK b.roomId s.rooms with _ | rm0
          · rw [hroom] at hinner
            exact h r rm hinner
          · rw [hroom] at hinner
            rw [getK_setK] at hinner
            by_cases hrr : r = b.roomId
            · rw [if_pos hrr] at hinner
              cases hinner
              exact ⟨filter_ids_nodup _ _ (h _ rm0 hroom).1, (h _ rm0 hroom).2⟩
            · rw [if_neg hrr] at hinner
              exact h r rm hinner
        · rw [if_neg hact] at hinner
          exact h r rm hinner
      | proctor =>
        rw [hrole] at hinner
        by_cases hact : (getK b.userId s.activeProctors).isSome
        · rw [if_pos hact] at hinner
          rcases hroom : getK b.roomId s.rooms with _ | rm0
          · rw [hroom] at hinner
            exact h r rm hinner
          · rw [hroom] at hinner
            rw [getK_setK] at hinner
            by_cases hrr : r = b.roomId
            · rw [if_pos hrr] at hinner
              cases hinner
              exact ⟨(h _ rm0 hroom).1, filter_ids_nodup _ _ (h _ rm0 hroom).2⟩
            · rw [if_neg hrr] at hinner
              exact h r rm hinner
        · rw [if_neg hact] at hinner
          exact h r rm hinner

theorem roomsOk_run (es : List Event) (s : ServerState) (h : RoomsOk s) :
    RoomsOk (runEvents s es) := by
  induction es generalizing s with
  | nil => exact h
  | cons e es ih => exact ih _ (roomsOk_step s e h)

/-- C6 (amended).  In every state reachable by any sequence of join and
leave events, every room's role bucket contains at most one record per
participant id, and a re-join with an id already present overwrites the
existing record in place — the bucket length does not grow.  (The further
part of the claim — that the bucket length always equals the number of
distinct ids currently joined minus those that have left, in particular
across a re-join from a new connection before the old one disconnects —
fails on the code; see the counterexample.) -/
theorem c6_bucket_uniqueness :
    (∀ (es : List Event) (r : String) (rm : Room),
      getK r (runEvents initState es).rooms = some rm →
      (rm.students.map Participant.id).Nodup ∧
      (rm.proctors.map Participant.id).Nodup) ∧
    (∀ (p : Participant) (l : List Participant),
      p.id ∈ l.map Participant.id → (upsertById p l).length = l.length) :=
  ⟨fun es => roomsOk_run es initState roomsOk_init, upsert_length_of_mem⟩

/-- The three-event trace refuting the count rule: student id "A" joins
room "R" from connection "S1", re-joins from a new connection "S2" before
"S1" disconnects, then "S1" disconnects. -/
def c6Trace : List Event :=
  [.joinStudent "S1" "A" "R" "Al" 0,
   .joinStudent "S2" "A" "R" "Al" 1,
   .disconnect "S1"]

/-- Counterexample to C6 as stated: after `c6Trace`, the disconnect of the
old connection "S1" has deleted the live record of "A" (who re-joined from
"S2" and never left), so the student bucket of room "R" is empty and the
binding for "S2" is still live, while the count rule of the claim says one
student is currently joined — bucket length 0, claimed count 1. -/
theorem c6_counterexample :
    getK "R" (runEvents initState c6Trace).rooms = some ⟨[], []⟩ ∧
    getK "S2" (runEvents initState c6Trace).socketToRoom =
      some ⟨"R", .student, "A"⟩ ∧
    specLiveStudentCount "R" c6Trace = 1 :=
  ⟨rfl, rfl, rfl⟩

/-- Witness for C6 (amended) at concrete inputs: the single-join trace, and
an in-place overwrite of an existing id. -/
theorem c6_witness :
    (((⟨[mkStudent "A" "Al" "S1" "R" 0], []⟩ : Room).students.map Participant.id).Nodup ∧
     ((⟨[mkStudent "A" "Al" "S1" "R" 0], []⟩ : Room).proctors.map Participant.id).Nodup) ∧
    (upsertById (mkStudent "A" "Al" "S2" "R" 1)
        [mkStudent "A" "Al" "S1" "R" 0]).length =
      [mkStudent "A" "Al" "S1" "R" 0].length :=
  ⟨c6_bucket_uniqueness.1 [.joinStudent "S1" "A" "R" "Al" 0] "R"
      ⟨[mkStudent "A" "Al" "S1" "R" 0], []⟩ rfl,
   c6_bucket_uniqueness.2 (mkStudent "A" "Al" "S2" "R" 1)
      [mkStudent "A" "Al" "S1" "R" 0] (by simp [mkStudent])⟩

end MediamtxBackend
